import Mathlib

/-
Verification of the BDPP (Bidirectional Packet Protocol) core of the
agon-vdp-otf firmware: a shallow embedding of src/video/bdpp/packet.h and
src/video/bdpp/bdp_protocol.cpp, followed by theorems about the packet
operations, the queue operations and the RX buffer-pool lifecycle.

Machine integers are modelled as Nat with explicit reductions mod 2^8 or
2^16 where the C code stores into uint8_t / uint16_t fields.  The payload
buffer is a List Nat of length max_size (heap_caps_calloc zero-fills it).
Queues of Packet pointers become Lists of Packet values; a C function that
mutates a packet through a pointer is embedded as a function returning the
updated packet alongside the updated queue state.
-/

namespace BDPP

set_option maxRecDepth 100000

/-- Maximum size of the data in one packet (packet.h line 17). -/
def BDDP_MAX_PACKET_DATA_SIZE : Nat := 4072

/-- Maximum payload data length for a small packet (packet.h line 18). -/
def BDPP_SMALL_PACKET_DATA_SIZE : Nat := 32

/-- Maximum number of app-owned packets (packet.h line 20). -/
def BDPP_MAX_APP_PACKETS : Nat := 16

/-- Maximum number of command/data streams (packet.h line 21). -/
def BDPP_MAX_STREAMS : Nat := 16

/-- Flag bit: packet contains a command or request (packet.h line 28). -/
def BDPP_PKT_FLAG_COMMAND : Nat := 0x01

/-- Flag bit: packet is ready for transmission or reception (packet.h line 33). -/
def BDPP_PKT_FLAG_READY : Nat := 0x10

/-- Flag bit: packet was transmitted or received (packet.h line 34). -/
def BDPP_PKT_FLAG_DONE : Nat := 0x20

/-- Flag bit: packet is for reception, not transmission (packet.h line 35). -/
def BDPP_PKT_FLAG_FOR_RX : Nat := 0x40

/-- Flag bit: packet is owned by the application (packet.h line 37). -/
def BDPP_PKT_FLAG_APP_OWNED : Nat := 0x80

/-- Flag bits that describe packet usage (packet.h line 38). -/
def BDPP_PKT_FLAG_USAGE_BITS : Nat := 0x0F

/-- One BDPP data packet: the UhciPacket header fields (flags, indexes,
act_size, data) of packet.h lines 44-49 together with the Packet class
field max_size (packet.h line 140).  The C object keeps its payload in a
DMA-capable buffer of max_size bytes obtained from heap_caps_calloc in the
constructor; bufValid records whether that allocation succeeded, because
the C constructor never checks the result. -/
structure Packet where
  flags : Nat
  indexes : Nat
  act_size : Nat
  data : List Nat
  max_size : Nat
  bufValid : Bool
deriving Repr, DecidableEq

/-- The Packet constructor (packet.h lines 72-80), with the outcome of
heap_caps_calloc made explicit as allocOk.  max_size is 4072 bytes when the
APP_OWNED flag bit is set and 32 bytes otherwise; flags and the packed
indexes byte (packet index in the low nibble, stream index shifted into the
high nibble) are stored into uint8_t fields, hence the mod 256; act_size
starts at 0 and calloc zero-fills the data buffer. -/
def Packet.makeAlloc (allocOk : Bool) (flags packet_index stream_index : Nat) : Packet :=
  let flags := flags % 256
  let packet_index := packet_index % 256
  let stream_index := stream_index % 256
  let max_size := if flags &&& BDPP_PKT_FLAG_APP_OWNED ≠ 0
    then BDDP_MAX_PACKET_DATA_SIZE else BDPP_SMALL_PACKET_DATA_SIZE
  { flags := flags
    indexes := (packet_index ||| (stream_index <<< 4)) % 256
    act_size := 0
    data := List.replicate max_size 0
    max_size := max_size
    bufValid := allocOk }

/-- The Packet constructor in the normal case where allocation succeeds. -/
def Packet.make (flags packet_index stream_index : Nat) : Packet :=
  Packet.makeAlloc true flags packet_index stream_index

/-- create_driver_tx_packet (packet.h lines 57-59): a new, empty,
driver-owned packet; only the usage bits of the requested flags are kept. -/
def Packet.create_driver_tx_packet (flags packet_index stream_index : Nat) : Packet :=
  Packet.make (flags &&& BDPP_PKT_FLAG_USAGE_BITS) packet_index stream_index

/-- create_app_tx_packet (packet.h lines 62-64): a new, empty, app-owned
packet; the usage bits of the requested flags are kept and APP_OWNED is set. -/
def Packet.create_app_tx_packet (flags packet_index stream_index : Nat) : Packet :=
  Packet.make ((flags &&& BDPP_PKT_FLAG_USAGE_BITS) ||| BDPP_PKT_FLAG_APP_OWNED)
    packet_index stream_index

/-- create_rx_packet (packet.h lines 67-69) with the allocation outcome
explicit: a new, empty RX packet with flags FOR_RX, READY and APP_OWNED and
both indexes zero. -/
def Packet.create_rx_packet_alloc (allocOk : Bool) : Packet :=
  Packet.makeAlloc allocOk
    (BDPP_PKT_FLAG_FOR_RX ||| BDPP_PKT_FLAG_READY ||| BDPP_PKT_FLAG_APP_OWNED) 0 0

/-- create_rx_packet in the normal case where allocation succeeds. -/
def Packet.create_rx_packet : Packet := Packet.create_rx_packet_alloc true

/-- is_flag_set (packet.h line 91). -/
def Packet.is_flag_set (p : Packet) (flag : Nat) : Bool :=
  p.flags &&& (flag % 256) ≠ 0

/-- is_flag_clear (packet.h line 94). -/
def Packet.is_flag_clear (p : Packet) (flag : Nat) : Bool :=
  p.flags &&& (flag % 256) = 0

/-- get_flags (packet.h line 97). -/
def Packet.get_flags (p : Packet) : Nat := p.flags

/-- get_packet_index (packet.h line 100): low nibble of the indexes byte. -/
def Packet.get_packet_index (p : Packet) : Nat := p.indexes &&& 0x0F

/-- get_stream_index (packet.h line 103): high nibble of the indexes byte. -/
def Packet.get_stream_index (p : Packet) : Nat := p.indexes >>> 4

/-- get_maximum_data_size (packet.h line 106). -/
def Packet.get_maximum_data_size (p : Packet) : Nat := p.max_size

/-- get_actual_data_size (packet.h line 109). -/
def Packet.get_actual_data_size (p : Packet) : Nat := p.act_size

/-- is_full (packet.h line 117): act_size >= max_size. -/
def Packet.is_full (p : Packet) : Bool :=
  p.get_actual_data_size ≥ p.get_maximum_data_size

/-- set_flags (packet.h line 123): OR the given uint8 mask into flags. -/
def Packet.set_flags (p : Packet) (flags : Nat) : Packet :=
  { p with flags := p.flags ||| (flags % 256) }

/-- clear_flags (packet.h line 126): AND flags with the 8-bit complement of
the given uint8 mask. -/
def Packet.clear_flags (p : Packet) (flags : Nat) : Packet :=
  { p with flags := p.flags &&& (255 ^^^ (flags % 256)) }

/-- append_data for one byte (packet.h lines 129-131): store the byte at
offset act_size and post-increment act_size (a uint16_t field, hence the
mod 65536).  There is no capacity check. -/
def Packet.append_data (p : Packet) (data_byte : Nat) : Packet :=
  { p with
    data := p.data.set p.act_size (data_byte % 256)
    act_size := (p.act_size + 1) % 65536 }

/-- The memcpy of append_data (packet.h line 135): write the given bytes
into the buffer starting at the given offset. -/
def writeBytes (buf : List Nat) (off : Nat) (bytes : List Nat) : List Nat :=
  match bytes with
  | [] => buf
  | b :: rest => writeBytes (buf.set off (b % 256)) (off + 1) rest

/-- append_data for multiple bytes (packet.h lines 134-137): memcpy count
bytes to offset act_size, then act_size += count (uint16_t arithmetic).
There is no capacity check. -/
def Packet.append_data_n (p : Packet) (bytes : List Nat) : Packet :=
  { p with
    data := writeBytes p.data p.act_size bytes
    act_size := (p.act_size + bytes.length) % 65536 }

/-- The global driver state of bdp_protocol.cpp lines 28-31:
bdpp_initialized, the TX queue, the array of BDPP_MAX_STREAMS RX queues,
and the free packet queue for RX. -/
structure DriverState where
  bdpp_initialized : Bool
  bdpp_tx_queue : List Packet
  bdpp_rx_queue : List (List Packet)
  bdpp_free_queue : List Packet
deriving Repr, DecidableEq

/-- The zero-initialized globals before any call: not initialized, all
queues empty, sixteen empty RX queues. -/
def initialState : DriverState :=
  { bdpp_initialized := false
    bdpp_tx_queue := []
    bdpp_rx_queue := List.replicate BDPP_MAX_STREAMS []
    bdpp_free_queue := [] }

/-- bdpp_is_initialized (bdp_protocol.cpp lines 36-38). -/
def bdpp_is_initialized (s : DriverState) : Bool := s.bdpp_initialized

/-- bdpp_initialize_driver (bdp_protocol.cpp lines 42-69) with the
heap_caps_calloc outcome of each loop iteration given by allocVals: push
BDPP_MAX_APP_PACKETS freshly created RX packets onto the free queue, then
(after the hardware setup, which touches no queue) set bdpp_initialized to
true.  The C loop performs no allocation check, so every iteration pushes
its packet and initialization always completes. -/
def bdpp_initialize_driver_alloc (allocVals : Nat → Bool) (s : DriverState) : DriverState :=
  { s with
    bdpp_free_queue := s.bdpp_free_queue ++
      (List.range BDPP_MAX_APP_PACKETS).map (fun i => Packet.create_rx_packet_alloc (allocVals i))
    bdpp_initialized := true }

/-- bdpp_initialize_driver in the normal case where every allocation
succeeds. -/
def bdpp_initialize_driver (s : DriverState) : DriverState :=
  bdpp_initialize_driver_alloc (fun _ => true) s

/-- bdpp_queue_tx_packet (bdp_protocol.cpp lines 74-80): inside the
interrupt-masked critical section, set the READY flag on the packet and
push it on the tail of the TX queue.  The queue holds the same (mutated)
packet the caller retains, so the embedding returns the updated state
together with the updated packet. -/
def bdpp_queue_tx_packet (s : DriverState) (packet : Packet) : DriverState × Packet :=
  let packet := packet.set_flags BDPP_PKT_FLAG_READY
  ({ s with bdpp_tx_queue := s.bdpp_tx_queue ++ [packet] }, packet)

/-- bdpp_rx_packet_available (bdp_protocol.cpp lines 83-88): whether the RX
queue of the given stream is non-empty.  The C code indexes the fixed
16-entry queue array with no bounds check; the embedding returns none for
an out-of-range stream index. -/
def bdpp_rx_packet_available (s : DriverState) (stream_index : Nat) : Option Bool :=
  (s.bdpp_rx_queue[stream_index]?).map (fun q => !q.isEmpty)

/-- bdpp_get_rx_packet (bdp_protocol.cpp lines 91-101): if the RX queue of
the given stream is non-empty, pop and return its front packet, else return
no packet and leave the state unchanged.  As above, an out-of-range stream
index has no defined queue and yields none. -/
def bdpp_get_rx_packet (s : DriverState) (stream_index : Nat) :
    Option (Option Packet × DriverState) :=
  match s.bdpp_rx_queue[stream_index]? with
  | none => none
  | some [] => some (none, s)
  | some (packet :: rest) =>
      some (some packet,
        { s with bdpp_rx_queue := s.bdpp_rx_queue.set stream_index rest })

/-- Total number of packets held across a list of queues. -/
def sumLens (qs : List (List Packet)) : Nat := (qs.map List.length).sum

/-- The RX buffer lifecycle state: the driver globals together with the
buffers currently armed for reception (handed to the transport) and the
buffers dequeued by the application and not yet recycled. -/
structure LifeState where
  drv : DriverState
  armed : List Packet
  app_held : List Packet
deriving Repr, DecidableEq

/-- Modelled from the spec: recycle(packet) resets length to 0 and restores
the ready / for-reception / app-owned flag state (spec section 4.2; the
recycling code itself is not under src). -/
def Packet.recycle_reset (p : Packet) : Packet :=
  { p with
    act_size := 0
    flags := BDPP_PKT_FLAG_FOR_RX ||| BDPP_PKT_FLAG_READY ||| BDPP_PKT_FLAG_APP_OWNED }

/-- Modelled from the spec: arming a buffer for reception draws a spare
buffer from FreeQueue and hands it to the transport (the FREE to ARMED step
of the RX state machine in spec section 4.3; the DMA arming code is not
under src).  Illegal when FreeQueue is empty. -/
def LifeState.arm (st : LifeState) : Option LifeState :=
  match st.drv.bdpp_free_queue with
  | [] => none
  | p :: rest =>
      some { st with
        drv := { st.drv with bdpp_free_queue := rest }
        armed := st.armed ++ [p] }

/-- Modelled from the spec: on_rx_complete(stream, packet) pushes a fully
received packet, here the oldest armed buffer, onto RxQueue[stream] (spec
section 4.3; the interrupt-context completion code is not under src).
Illegal when no buffer is armed or the stream has no queue. -/
def LifeState.complete (st : LifeState) (stream : Nat) : Option LifeState :=
  match st.armed with
  | [] => none
  | p :: rest =>
      match st.drv.bdpp_rx_queue[stream]? with
      | none => none
      | some q =>
          some { st with
            drv := { st.drv with
              bdpp_rx_queue := st.drv.bdpp_rx_queue.set stream (q ++ [p]) }
            armed := rest }

/-- Dequeuing through bdpp_get_rx_packet: legal when the call returns a
packet, which the application then holds until it recycles it. -/
def LifeState.dequeue (st : LifeState) (stream : Nat) : Option LifeState :=
  match bdpp_get_rx_packet st.drv stream with
  | some (some p, drv2) =>
      some { st with drv := drv2, app_held := st.app_held ++ [p] }
  | _ => none

/-- Modelled from the spec: recycling returns a fully consumed buffer, here
the oldest application-held one, to FreeQueue after resetting it (spec
section 4.2; the recycling code is not under src). -/
def LifeState.recycle (st : LifeState) : Option LifeState :=
  match st.app_held with
  | [] => none
  | p :: rest =>
      some { st with
        drv := { st.drv with
          bdpp_free_queue := st.drv.bdpp_free_queue ++ [p.recycle_reset] }
        app_held := rest }

/-- One legal operation of the RX buffer lifecycle. -/
inductive RxOp where
  | arm : RxOp
  | complete : Nat → RxOp
  | dequeue : Nat → RxOp
  | recycle : RxOp
deriving Repr, DecidableEq

/-- Perform one lifecycle operation; none when the operation is illegal in
the given state. -/
def stepOp (op : RxOp) (st : LifeState) : Option LifeState :=
  match op with
  | RxOp.arm => st.arm
  | RxOp.complete s => st.complete s
  | RxOp.dequeue s => st.dequeue s
  | RxOp.recycle => st.recycle

/-- Run a sequence of lifecycle operations; none as soon as one is illegal. -/
def runOps (ops : List RxOp) (st : LifeState) : Option LifeState :=
  match ops with
  | [] => some st
  | op :: rest => (stepOp op st).bind (runOps rest)

/-- Count of app-owned RX buffers across FreeQueue, the armed set and the
sixteen RxQueues (the three places named by the conservation claim). -/
def count3 (st : LifeState) : Nat :=
  st.drv.bdpp_free_queue.length + st.armed.length + sumLens st.drv.bdpp_rx_queue

/-- Count that also includes the buffers dequeued by the application and
not yet recycled. -/
def count4 (st : LifeState) : Nat := count3 st + st.app_held.length

/-- The lifecycle state right after bdpp_initialize_driver(). -/
def initLife : LifeState :=
  { drv := bdpp_initialize_driver initialState
    armed := []
    app_held := [] }

/-- Projection lemma: the packed indexes byte stored by the constructor. -/
theorem makeAlloc_indexes (ok : Bool) (f a b : Nat) :
    (Packet.makeAlloc ok f a b).indexes = ((a % 256) ||| ((b % 256) <<< 4)) % 256 := rfl

/-- Projection lemma: a freshly constructed packet has act_size 0. -/
theorem makeAlloc_act_size (ok : Bool) (f a b : Nat) :
    (Packet.makeAlloc ok f a b).act_size = 0 := rfl

/-- Projection lemma: the stored flags byte. -/
theorem makeAlloc_flags (ok : Bool) (f a b : Nat) :
    (Packet.makeAlloc ok f a b).flags = f % 256 := rfl

/-- Projection lemma: the capacity chosen by the constructor. -/
theorem makeAlloc_max_size (ok : Bool) (f a b : Nat) :
    (Packet.makeAlloc ok f a b).max_size =
      if (f % 256) &&& BDPP_PKT_FLAG_APP_OWNED ≠ 0
      then BDDP_MAX_PACKET_DATA_SIZE else BDPP_SMALL_PACKET_DATA_SIZE := rfl

/-- Projection lemmas for append_data. -/
theorem append_data_act_size (p : Packet) (b : Nat) :
    (p.append_data b).act_size = (p.act_size + 1) % 65536 := rfl

theorem append_data_max_size (p : Packet) (b : Nat) :
    (p.append_data b).max_size = p.max_size := rfl

theorem append_data_flags (p : Packet) (b : Nat) :
    (p.append_data b).flags = p.flags := rfl

theorem append_data_indexes (p : Packet) (b : Nat) :
    (p.append_data b).indexes = p.indexes := rfl

theorem append_data_data (p : Packet) (b : Nat) :
    (p.append_data b).data = p.data.set p.act_size (b % 256) := rfl

/-- Projection lemmas for append_data_n. -/
theorem append_data_n_act_size (p : Packet) (bytes : List Nat) :
    (p.append_data_n bytes).act_size = (p.act_size + bytes.length) % 65536 := rfl

theorem append_data_n_max_size (p : Packet) (bytes : List Nat) :
    (p.append_data_n bytes).max_size = p.max_size := rfl

theorem append_data_n_flags (p : Packet) (bytes : List Nat) :
    (p.append_data_n bytes).flags = p.flags := rfl

theorem append_data_n_indexes (p : Packet) (bytes : List Nat) :
    (p.append_data_n bytes).indexes = p.indexes := rfl

theorem append_data_n_data (p : Packet) (bytes : List Nat) :
    (p.append_data_n bytes).data = writeBytes p.data p.act_size bytes := rfl

/-- Nibble decoding helper: the low nibble of the packed byte is the packet
index, checked over all 256 nibble pairs. -/
theorem make_packet_index_lo :
    ∀ (a b : Fin 16), (Packet.make 0 a.val b.val).get_packet_index = a.val := by decide

/-- Nibble decoding helper: the high nibble of the packed byte is the
stream index, checked over all 256 nibble pairs. -/
theorem make_stream_index_hi :
    ∀ (a b : Fin 16), (Packet.make 0 a.val b.val).get_stream_index = b.val := by decide

/-- C5: round-trip of the packed index nibbles: for every uint8 flags value
and all slot and stream values in 0..15, a packet built by the Packet
constructor, by create_driver_tx_packet or by create_app_tx_packet with
packet_index = slot and stream_index = stream reports exactly those values
back through get_packet_index and get_stream_index, and create_rx_packet
(which packs slot 0, stream 0) reports 0 and 0. -/
theorem claim5_index_roundtrip :
    ∀ (f : Fin 256) (slot stream : Fin 16),
      ((Packet.make f.val slot.val stream.val).get_packet_index = slot.val
        ∧ (Packet.make f.val slot.val stream.val).get_stream_index = stream.val)
      ∧ ((Packet.create_driver_tx_packet f.val slot.val stream.val).get_packet_index = slot.val
        ∧ (Packet.create_driver_tx_packet f.val slot.val stream.val).get_stream_index = stream.val)
      ∧ ((Packet.create_app_tx_packet f.val slot.val stream.val).get_packet_index = slot.val
        ∧ (Packet.create_app_tx_packet f.val slot.val stream.val).get_stream_index = stream.val)
      ∧ (Packet.create_rx_packet.get_packet_index = 0
        ∧ Packet.create_rx_packet.get_stream_index = 0) := by
  intro f slot stream
  exact ⟨⟨make_packet_index_lo slot stream, make_stream_index_hi slot stream⟩,
    ⟨make_packet_index_lo slot stream, make_stream_index_hi slot stream⟩,
    ⟨make_packet_index_lo slot stream, make_stream_index_hi slot stream⟩,
    ⟨by decide, by decide⟩⟩

/-- Capacity helper: an app-owned creation always selects the large
capacity, checked over all 256 uint8 flag values. -/
theorem app_tx_max_size_all :
    ∀ (x : Fin 256),
      (Packet.create_app_tx_packet x.val 0 0).get_maximum_data_size
        = BDDP_MAX_PACKET_DATA_SIZE := by decide

/-- Ownership helper: an app-owned creation always has APP_OWNED set. -/
theorem app_tx_owned_all :
    ∀ (x : Fin 256),
      (Packet.create_app_tx_packet x.val 0 0).is_flag_set BDPP_PKT_FLAG_APP_OWNED
        = true := by decide

/-- Capacity helper: a driver-owned creation always selects the small
capacity. -/
theorem driver_tx_max_size_all :
    ∀ (x : Fin 256),
      (Packet.create_driver_tx_packet x.val 0 0).get_maximum_data_size
        = BDPP_SMALL_PACKET_DATA_SIZE := by decide

/-- Ownership helper: a driver-owned creation always has APP_OWNED clear. -/
theorem driver_tx_not_owned_all :
    ∀ (x : Fin 256),
      (Packet.create_driver_tx_packet x.val 0 0).is_flag_clear BDPP_PKT_FLAG_APP_OWNED
        = true := by decide

/-- C7: creation postconditions: packets from create_app_tx_packet and
create_rx_packet have capacity 4072 and the app-owned bit set, packets from
create_driver_tx_packet have capacity 32 and are driver-owned (app-owned
bit clear), every freshly created packet has length 0, and an RX packet
additionally has the for-reception and ready flags set. -/
theorem claim7_creation_postconditions :
    ∀ (f : Fin 256) (slot stream : Fin 16),
      ((Packet.create_app_tx_packet f.val slot.val stream.val).get_maximum_data_size
          = BDDP_MAX_PACKET_DATA_SIZE
        ∧ (Packet.create_app_tx_packet f.val slot.val stream.val).is_flag_set
            BDPP_PKT_FLAG_APP_OWNED = true
        ∧ (Packet.create_app_tx_packet f.val slot.val stream.val).get_actual_data_size = 0)
      ∧ (Packet.create_rx_packet.get_maximum_data_size = BDDP_MAX_PACKET_DATA_SIZE
        ∧ Packet.create_rx_packet.is_flag_set BDPP_PKT_FLAG_APP_OWNED = true
        ∧ Packet.create_rx_packet.is_flag_set BDPP_PKT_FLAG_FOR_RX = true
        ∧ Packet.create_rx_packet.is_flag_set BDPP_PKT_FLAG_READY = true
        ∧ Packet.create_rx_packet.get_actual_data_size = 0)
      ∧ ((Packet.create_driver_tx_packet f.val slot.val stream.val).get_maximum_data_size
          = BDPP_SMALL_PACKET_DATA_SIZE
        ∧ (Packet.create_driver_tx_packet f.val slot.val stream.val).is_flag_clear
            BDPP_PKT_FLAG_APP_OWNED = true
        ∧ (Packet.create_driver_tx_packet f.val slot.val stream.val).get_actual_data_size = 0)
      ∧ (Packet.make f.val slot.val stream.val).get_actual_data_size = 0 := by
  intro f slot stream
  exact ⟨⟨app_tx_max_size_all f, app_tx_owned_all f, rfl⟩,
    ⟨by decide, by decide, by decide, by decide, rfl⟩,
    ⟨driver_tx_max_size_all f, driver_tx_not_owned_all f, rfl⟩, rfl⟩

/-- C4: is_full is true iff the length equals the capacity whenever the
length is within capacity, and each append that respects its precondition
keeps the length within capacity. -/
theorem claim4_is_full_iff :
    ∀ (p : Packet),
      (p.get_actual_data_size ≤ p.get_maximum_data_size →
        (p.is_full = true ↔ p.get_actual_data_size = p.get_maximum_data_size))
      ∧ (∀ b : Nat, p.get_actual_data_size + 1 ≤ p.get_maximum_data_size →
          (p.append_data b).get_actual_data_size ≤ (p.append_data b).get_maximum_data_size)
      ∧ (∀ bytes : List Nat,
          p.get_actual_data_size + bytes.length ≤ p.get_maximum_data_size →
          (p.append_data_n bytes).get_actual_data_size
            ≤ (p.append_data_n bytes).get_maximum_data_size) := by
  intro p
  refine ⟨?_, ?_, ?_⟩
  · intro h
    simp only [Packet.is_full, Packet.get_actual_data_size, Packet.get_maximum_data_size,
      ge_iff_le, decide_eq_true_eq] at *
    omega
  · intro b h
    simp only [Packet.get_actual_data_size, Packet.get_maximum_data_size,
      append_data_act_size, append_data_max_size] at *
    omega
  · intro bytes h
    simp only [Packet.get_actual_data_size, Packet.get_maximum_data_size,
      append_data_n_act_size, append_data_n_max_size] at *
    omega

/-- Witness for C4 at a concrete packet: the freshly created RX packet. -/
theorem claim4_is_full_iff_witness :
    (Packet.create_rx_packet.is_full = true
      ↔ Packet.create_rx_packet.get_actual_data_size
          = Packet.create_rx_packet.get_maximum_data_size)
    ∧ (Packet.create_rx_packet.append_data 7).get_actual_data_size
        ≤ (Packet.create_rx_packet.append_data 7).get_maximum_data_size
    ∧ (Packet.create_rx_packet.append_data_n [1, 2, 3]).get_actual_data_size
        ≤ (Packet.create_rx_packet.append_data_n [1, 2, 3]).get_maximum_data_size :=
  ⟨(claim4_is_full_iff Packet.create_rx_packet).1 (by decide),
    (claim4_is_full_iff Packet.create_rx_packet).2.1 7 (by decide),
    (claim4_is_full_iff Packet.create_rx_packet).2.2 [1, 2, 3] (by decide)⟩

/-- OR-ing a mask in and AND-ing with it yields a nonzero value whenever
some bit of the mask is set. -/
theorem lor_land_self_ne_zero (x m j : Nat) (hj : Nat.testBit m j = true) :
    (x ||| m) &&& m ≠ 0 := by
  intro h
  have hb : Nat.testBit ((x ||| m) &&& m) j = true := by
    rw [Nat.testBit_land, Nat.testBit_lor, hj]
    simp
  rw [h] at hb
  simp [Nat.zero_testBit] at hb

/-- All of the low eight bits of 255 are set. -/
theorem testBit_255_of_lt (i : Nat) (h : i < 8) : Nat.testBit 255 i = true := by
  interval_cases i <;> decide

/-- A value below 256 has no bits at positions 8 and above. -/
theorem testBit_of_lt_256 (x i : Nat) (hx : x < 256) (h : 8 ≤ i) :
    Nat.testBit x i = false :=
  Nat.testBit_lt_two_pow
    (lt_of_lt_of_le hx (le_trans (by norm_num) (Nat.pow_le_pow_right (by norm_num) h)))

/-- C8: flag-update algebra: set_flags(m) followed by clear_flags(m) leaves
every flag bit outside m as it was, set_flags(m) and clear_flags(m) are
idempotent, and neither disturbs any bit outside the mask m. -/
theorem claim8_flag_update_algebra :
    ∀ (p : Packet) (m : Fin 256), p.flags < 256 →
      ((p.set_flags m.val).set_flags m.val = p.set_flags m.val)
      ∧ ((p.clear_flags m.val).clear_flags m.val = p.clear_flags m.val)
      ∧ (∀ i : Nat, Nat.testBit m.val i = false →
          Nat.testBit ((p.set_flags m.val).clear_flags m.val).flags i
              = Nat.testBit p.flags i
          ∧ Nat.testBit (p.set_flags m.val).flags i = Nat.testBit p.flags i
          ∧ Nat.testBit (p.clear_flags m.val).flags i = Nat.testBit p.flags i) := by
  intro p m hp
  have hm : m.val % 256 = m.val := Nat.mod_eq_of_lt m.isLt
  refine ⟨?_, ?_, ?_⟩
  · simp [Packet.set_flags, Nat.lor_assoc]
  · simp [Packet.clear_flags, Nat.land_assoc]
  · intro i hmi
    by_cases hi : i < 8
    · have h255 : Nat.testBit 255 i = true := testBit_255_of_lt i hi
      refine ⟨?_, ?_, ?_⟩ <;>
        simp [Packet.set_flags, Packet.clear_flags, hm, Nat.testBit_land,
          Nat.testBit_lor, Nat.testBit_xor, hmi, h255]
    · have h255 : Nat.testBit 255 i = false :=
        testBit_of_lt_256 255 i (by norm_num) (by omega)
      have hpf : Nat.testBit p.flags i = false := testBit_of_lt_256 p.flags i hp (by omega)
      refine ⟨?_, ?_, ?_⟩ <;>
        simp [Packet.set_flags, Packet.clear_flags, hm, Nat.testBit_land,
          Nat.testBit_lor, Nat.testBit_xor, hmi, h255, hpf]

/-- Witness for C8 at a concrete packet and mask. -/
theorem claim8_flag_update_algebra_witness :
    Nat.testBit ((Packet.create_rx_packet.set_flags (16 : Fin 256).val).clear_flags
        (16 : Fin 256).val).flags 0
      = Nat.testBit Packet.create_rx_packet.flags 0
    ∧ (Packet.create_rx_packet.set_flags (16 : Fin 256).val).set_flags (16 : Fin 256).val
      = Packet.create_rx_packet.set_flags (16 : Fin 256).val :=
  ⟨((claim8_flag_update_algebra Packet.create_rx_packet 16 (by decide)).2.2 0
      (by decide)).1,
   (claim8_flag_update_algebra Packet.create_rx_packet 16 (by decide)).1⟩

/-- The READY mask has no bit at positions other than 4. -/
theorem testBit_ready_ne4 :
    ∀ (u : Fin 8), u.val ≠ 4 → Nat.testBit (BDPP_PKT_FLAG_READY % 256) u.val = false := by
  decide

/-- C2: bdpp_queue_tx_packet sets READY on the packet, appends it at the
tail of the one TX queue (length grows by one, existing entries keep their
positions), always succeeds, and leaves the RX queues, the free queue, the
initialized flag and every other field of the packet (all flag bits other
than READY, the indexes, the length, the payload, the capacity) unchanged;
and the concrete scenario of section 8 of the spec holds. -/
theorem claim2_queue_tx :
    ∀ (s : DriverState) (p : Packet),
      (bdpp_queue_tx_packet s p).2.is_flag_set BDPP_PKT_FLAG_READY = true
      ∧ (bdpp_queue_tx_packet s p).1.bdpp_tx_queue
          = s.bdpp_tx_queue ++ [(bdpp_queue_tx_packet s p).2]
      ∧ (bdpp_queue_tx_packet s p).1.bdpp_tx_queue.length = s.bdpp_tx_queue.length + 1
      ∧ (∀ i : Nat, i < s.bdpp_tx_queue.length →
          (bdpp_queue_tx_packet s p).1.bdpp_tx_queue[i]? = s.bdpp_tx_queue[i]?)
      ∧ (bdpp_queue_tx_packet s p).1.bdpp_rx_queue = s.bdpp_rx_queue
      ∧ (bdpp_queue_tx_packet s p).1.bdpp_free_queue = s.bdpp_free_queue
      ∧ (bdpp_queue_tx_packet s p).1.bdpp_initialized = s.bdpp_initialized
      ∧ (∀ u : Fin 8, u.val ≠ 4 →
          Nat.testBit (bdpp_queue_tx_packet s p).2.flags u.val = Nat.testBit p.flags u.val)
      ∧ (bdpp_queue_tx_packet s p).2.indexes = p.indexes
      ∧ (bdpp_queue_tx_packet s p).2.act_size = p.act_size
      ∧ (bdpp_queue_tx_packet s p).2.data = p.data
      ∧ (bdpp_queue_tx_packet s p).2.max_size = p.max_size
      ∧ ((bdpp_queue_tx_packet (bdpp_initialize_driver initialState)
            ((Packet.create_app_tx_packet BDPP_PKT_FLAG_COMMAND 1 3).append_data_n
              [1, 2, 3])).1.bdpp_tx_queue.length = 1
        ∧ (bdpp_queue_tx_packet (bdpp_initialize_driver initialState)
            ((Packet.create_app_tx_packet BDPP_PKT_FLAG_COMMAND 1 3).append_data_n
              [1, 2, 3])).2.is_flag_set BDPP_PKT_FLAG_READY = true
        ∧ (bdpp_queue_tx_packet (bdpp_initialize_driver initialState)
            ((Packet.create_app_tx_packet BDPP_PKT_FLAG_COMMAND 1 3).append_data_n
              [1, 2, 3])).2.get_stream_index = 3
        ∧ (bdpp_queue_tx_packet (bdpp_initialize_driver initialState)
            ((Packet.create_app_tx_packet BDPP_PKT_FLAG_COMMAND 1 3).append_data_n
              [1, 2, 3])).2.get_packet_index = 1
        ∧ (bdpp_queue_tx_packet (bdpp_initialize_driver initialState)
            ((Packet.create_app_tx_packet BDPP_PKT_FLAG_COMMAND 1 3).append_data_n
              [1, 2, 3])).2.get_actual_data_size = 3) := by
  intro s p
  refine ⟨?_, rfl, ?_, ?_, rfl, rfl, rfl, ?_, rfl, rfl, rfl, rfl,
    by decide, by decide, by decide, by decide, by decide⟩
  · simp only [bdpp_queue_tx_packet, Packet.set_flags, Packet.is_flag_set,
      decide_eq_true_eq]
    exact lor_land_self_ne_zero p.flags (BDPP_PKT_FLAG_READY % 256) 4 (by decide)
  · simp [bdpp_queue_tx_packet]
  · intro i hi
    have h2 : (s.bdpp_tx_queue ++ [p.set_flags BDPP_PKT_FLAG_READY])[i]?
        = s.bdpp_tx_queue[i]? := by
      rw [List.getElem?_append]
      simp [hi]
    exact h2
  · intro u hu
    simp only [bdpp_queue_tx_packet, Packet.set_flags]
    rw [Nat.testBit_lor, testBit_ready_ne4 u hu]
    simp

/-- Witness for C2 at concrete states, packets and indexes. -/
theorem claim2_queue_tx_witness :
    (bdpp_queue_tx_packet
        (bdpp_queue_tx_packet (bdpp_initialize_driver initialState)
          Packet.create_rx_packet).1
        Packet.create_rx_packet).1.bdpp_tx_queue[0]?
      = (bdpp_queue_tx_packet (bdpp_initialize_driver initialState)
          Packet.create_rx_packet).1.bdpp_tx_queue[0]?
    ∧ Nat.testBit (bdpp_queue_tx_packet initialState Packet.create_rx_packet).2.flags 0
      = Nat.testBit Packet.create_rx_packet.flags 0 :=
  ⟨(claim2_queue_tx
      (bdpp_queue_tx_packet (bdpp_initialize_driver initialState)
        Packet.create_rx_packet).1
      Packet.create_rx_packet).2.2.2.1 0 (by decide),
   (claim2_queue_tx initialState Packet.create_rx_packet).2.2.2.2.2.2.2.1 0
      (by decide)⟩

/-- C3: for a well-formed state and any stream below 16,
bdpp_rx_packet_available reports exactly whether the RX queue of that
stream is non-empty, and bdpp_get_rx_packet returns no packet and leaves
the state unchanged on an empty queue, and pops and returns exactly the
head on a non-empty queue; an empty queue is a normal empty result. -/
theorem claim3_rx_poll :
    ∀ (s : DriverState) (i : Nat),
      s.bdpp_rx_queue.length = BDPP_MAX_STREAMS → i < BDPP_MAX_STREAMS →
      ((bdpp_rx_packet_available s i = some true ↔ s.bdpp_rx_queue.getD i [] ≠ [])
       ∧ (bdpp_rx_packet_available s i = some false ↔ s.bdpp_rx_queue.getD i [] = [])
       ∧ (s.bdpp_rx_queue.getD i [] = [] → bdpp_get_rx_packet s i = some (none, s))
       ∧ (∀ p rest, s.bdpp_rx_queue.getD i [] = p :: rest →
           bdpp_get_rx_packet s i
             = some (some p, { s with bdpp_rx_queue := s.bdpp_rx_queue.set i rest }))) := by
  intro s i hlen hi
  have hlt : i < s.bdpp_rx_queue.length := by
    simp only [BDPP_MAX_STREAMS] at hlen hi
    omega
  have hq : s.bdpp_rx_queue[i]? = some (s.bdpp_rx_queue.getD i []) := by
    rw [List.getD_eq_getElem?_getD, List.getElem?_eq_getElem hlt]
    rfl
  cases hcase : s.bdpp_rx_queue.getD i [] with
  | nil =>
    rw [hcase] at hq
    refine ⟨?_, ?_, ?_, ?_⟩
    · simp [bdpp_rx_packet_available, hq]
    · simp [bdpp_rx_packet_available, hq]
    · intro _
      simp [bdpp_get_rx_packet, hq]
    · intro p rest hpr
      simp at hpr
  | cons p0 rest0 =>
    rw [hcase] at hq
    refine ⟨?_, ?_, ?_, ?_⟩
    · simp [bdpp_rx_packet_available, hq]
    · simp [bdpp_rx_packet_available, hq]
    · intro h
      simp at h
    · intro p rest hpr
      injection hpr with hp1 hp2
      subst hp1
      subst hp2
      simp [bdpp_get_rx_packet, hq]

/-- Witness for C3 at the freshly zero-initialized state and stream 0. -/
theorem claim3_rx_poll_witness :
    (bdpp_rx_packet_available initialState 0 = some false
      ↔ initialState.bdpp_rx_queue.getD 0 [] = [])
    ∧ bdpp_get_rx_packet initialState 0 = some (none, initialState) :=
  ⟨(claim3_rx_poll initialState 0 (by decide) (by decide)).2.1,
   (claim3_rx_poll initialState 0 (by decide) (by decide)).2.2.1 (by decide)⟩

/-- C10: on a well-formed state (sixteen RX queues), both RX polling
functions are defined (return a value) for every stream index below 16, and
for any stream index at or above 16 the array access has no defined queue
(the total embedding returns none). -/
theorem claim10_stream_bounds :
    ∀ (s : DriverState) (i : Nat), s.bdpp_rx_queue.length = BDPP_MAX_STREAMS →
      ((i < BDPP_MAX_STREAMS →
         (bdpp_rx_packet_available s i).isSome = true
         ∧ (bdpp_get_rx_packet s i).isSome = true)
       ∧ (BDPP_MAX_STREAMS ≤ i →
         bdpp_rx_packet_available s i = none ∧ bdpp_get_rx_packet s i = none)) := by
  intro s i hlen
  constructor
  · intro hi
    have hlt : i < s.bdpp_rx_queue.length := by
      simp only [BDPP_MAX_STREAMS] at hlen hi
      omega
    obtain ⟨q, hq⟩ : ∃ q, s.bdpp_rx_queue[i]? = some q :=
      ⟨_, List.getElem?_eq_getElem hlt⟩
    constructor
    · simp [bdpp_rx_packet_available, hq]
    · cases q with
      | nil => simp [bdpp_get_rx_packet, hq]
      | cons p0 rest0 => simp [bdpp_get_rx_packet, hq]
  · intro hge
    have hnone : s.bdpp_rx_queue[i]? = none := by
      apply List.getElem?_eq_none
      simp only [BDPP_MAX_STREAMS] at hlen hge
      omega
    exact ⟨by simp [bdpp_rx_packet_available, hnone],
      by simp [bdpp_get_rx_packet, hnone]⟩

/-- Witness for C10 at the zero-initialized state, streams 0 and 16. -/
theorem claim10_stream_bounds_witness :
    ((bdpp_rx_packet_available initialState 0).isSome = true
      ∧ (bdpp_get_rx_packet initialState 0).isSome = true)
    ∧ (bdpp_rx_packet_available initialState 16 = none
      ∧ bdpp_get_rx_packet initialState 16 = none) :=
  ⟨(claim10_stream_bounds initialState 0 (by decide)).1 (by decide),
   (claim10_stream_bounds initialState 16 (by decide)).2 (by decide)⟩

/-- writeBytes never changes the buffer length. -/
theorem writeBytes_length :
    ∀ (bytes buf : List Nat) (off : Nat),
      (writeBytes buf off bytes).length = buf.length := by
  intro bytes
  induction bytes with
  | nil =>
      intro buf off
      rfl
  | cons b rest ih =>
      intro buf off
      simp only [writeBytes]
      rw [ih (buf.set off (b % 256)) (off + 1)]
      exact List.length_set buf off (b % 256)

/-- writeBytes leaves every position below the write offset unchanged. -/
theorem writeBytes_getElem_lt :
    ∀ (bytes buf : List Nat) (off j : Nat), j < off →
      (writeBytes buf off bytes)[j]? = buf[j]? := by
  intro bytes
  induction bytes with
  | nil =>
      intro buf off j hj
      rfl
  | cons b rest ih =>
      intro buf off j hj
      simp only [writeBytes]
      rw [ih (buf.set off (b % 256)) (off + 1) j (by omega)]
      exact List.getElem?_set_ne (by omega)

/-- writeBytes puts byte j of the source at position off + j, whenever the
write fits in the buffer. -/
theorem writeBytes_getElem_at :
    ∀ (bytes buf : List Nat) (off j b : Nat),
      off + bytes.length ≤ buf.length → bytes[j]? = some b →
      (writeBytes buf off bytes)[off + j]? = some (b % 256) := by
  intro bytes
  induction bytes with
  | nil =>
      intro buf off j b hle hj
      simp at hj
  | cons bb rest ih =>
      intro buf off j b hle hj
      simp only [List.length_cons] at hle
      cases j with
      | zero =>
          simp only [List.getElem?_cons_zero, Option.some.injEq] at hj
          subst hj
          simp only [writeBytes]
          rw [show off + 0 = off by omega]
          rw [writeBytes_getElem_lt rest (buf.set off (bb % 256)) (off + 1) off (by omega)]
          rw [List.getElem?_set_self]
          omega
      | succ j2 =>
          simp only [List.getElem?_cons_succ] at hj
          simp only [writeBytes]
          have hres := ih (buf.set off (bb % 256)) (off + 1) j2 b
            (by rw [List.length_set]; omega) hj
          rw [show off + (j2 + 1) = (off + 1) + j2 by omega]
          exact hres

/-- C6: append semantics under the caller-obligation precondition:
append_data(byte) writes the byte at offset length and advances length by
one; append_data(bytes, count) writes the count bytes at offsets
length..length+count-1 and advances length by count; payload bytes below
the old length and every header field other than length are unchanged; and
(last conjunct) both appends update length unconditionally, with no
capacity check or error path. -/
theorem claim6_append_semantics :
    ∀ (p : Packet) (b : Nat) (bytes : List Nat),
      p.data.length = p.max_size → p.max_size < 65536 →
      ((p.act_size + 1 ≤ p.max_size →
         ((p.append_data b).act_size = p.act_size + 1
          ∧ (p.append_data b).data[p.act_size]? = some (b % 256)
          ∧ (∀ j, j < p.act_size → (p.append_data b).data[j]? = p.data[j]?)
          ∧ (p.append_data b).flags = p.flags
          ∧ (p.append_data b).indexes = p.indexes
          ∧ (p.append_data b).max_size = p.max_size))
       ∧ (p.act_size + bytes.length ≤ p.max_size →
         ((p.append_data_n bytes).act_size = p.act_size + bytes.length
          ∧ (∀ j bb, bytes[j]? = some bb →
              (p.append_data_n bytes).data[p.act_size + j]? = some (bb % 256))
          ∧ (∀ j, j < p.act_size → (p.append_data_n bytes).data[j]? = p.data[j]?)
          ∧ (p.append_data_n bytes).flags = p.flags
          ∧ (p.append_data_n bytes).indexes = p.indexes
          ∧ (p.append_data_n bytes).max_size = p.max_size))
       ∧ ((p.append_data b).act_size = (p.act_size + 1) % 65536
          ∧ (p.append_data_n bytes).act_size
              = (p.act_size + bytes.length) % 65536)) := by
  intro p b bytes hlen hmax
  refine ⟨?_, ?_, rfl, rfl⟩
  · intro h
    refine ⟨?_, ?_, ?_, rfl, rfl, rfl⟩
    · rw [append_data_act_size]
      omega
    · rw [append_data_data]
      rw [List.getElem?_set_self]
      omega
    · intro j hj
      rw [append_data_data]
      exact List.getElem?_set_ne (by omega)
  · intro h
    refine ⟨?_, ?_, ?_, rfl, rfl, rfl⟩
    · rw [append_data_n_act_size]
      omega
    · intro j bb hbb
      rw [append_data_n_data]
      exact writeBytes_getElem_at bytes p.data p.act_size j bb (by omega) hbb
    · intro j hj
      rw [append_data_n_data]
      exact writeBytes_getElem_lt bytes p.data p.act_size j hj

/-- Witness for C6 at a concrete small packet. -/
theorem claim6_append_semantics_witness :
    ((Packet.create_driver_tx_packet 0 0 0).append_data 65).act_size
        = (Packet.create_driver_tx_packet 0 0 0).act_size + 1
    ∧ ((Packet.create_driver_tx_packet 0 0 0).append_data_n
        [1, 2, 3]).data[(Packet.create_driver_tx_packet 0 0 0).act_size + 0]?
        = some (1 % 256) :=
  ⟨((claim6_append_semantics (Packet.create_driver_tx_packet 0 0 0) 65 [1, 2, 3]
      (by decide) (by decide)).1 (by decide)).1,
   ((claim6_append_semantics (Packet.create_driver_tx_packet 0 0 0) 65 [1, 2, 3]
      (by decide) (by decide)).2.1 (by decide)).2.1 0 1 (by decide)⟩

/-- C9 (code bug): bdpp_initialize_driver performs no allocation check:
when heap_caps_calloc fails for the first RX pool packet, the embedded
initializer still pushes all sixteen packets onto the free queue, one of
them with an invalid buffer, and still sets bdpp_initialized, so
bdpp_is_initialized() reports true instead of initialization aborting. -/
theorem claim9_no_allocation_check :
    bdpp_is_initialized
        (bdpp_initialize_driver_alloc (fun i => decide (i ≠ 0)) initialState) = true
    ∧ (bdpp_initialize_driver_alloc (fun i => decide (i ≠ 0))
        initialState).bdpp_free_queue.length = BDPP_MAX_APP_PACKETS
    ∧ (bdpp_initialize_driver_alloc (fun i => decide (i ≠ 0))
        initialState).bdpp_free_queue.any (fun p => !p.bufValid) = true :=
  ⟨rfl, by decide, by decide⟩

/-- sumLens of a cons. -/
theorem sumLens_cons (q : List Packet) (qs : List (List Packet)) :
    sumLens (q :: qs) = q.length + sumLens qs := by
  simp [sumLens]

/-- Replacing queue i changes the total packet count by the difference of
the two queue lengths. -/
theorem sumLens_set (qs : List (List Packet)) (i : Nat) (q q2 : List Packet)
    (h : qs[i]? = some q) :
    sumLens (qs.set i q2) + q.length = sumLens qs + q2.length := by
  induction qs generalizing i with
  | nil => simp at h
  | cons hd tl ih =>
      cases i with
      | zero =>
          simp only [List.getElem?_cons_zero, Option.some.injEq] at h
          subst h
          rw [List.set_cons_zero, sumLens_cons, sumLens_cons]
          omega
      | succ i2 =>
          simp only [List.getElem?_cons_succ] at h
          rw [List.set_cons_succ, sumLens_cons, sumLens_cons]
          have := ih i2 h
          omega

/-- Every legal lifecycle step preserves the four-way buffer count. -/
theorem stepOp_count4 (op : RxOp) (st st2 : LifeState)
    (h : stepOp op st = some st2) : count4 st2 = count4 st := by
  cases op with
  | arm =>
      simp only [stepOp, LifeState.arm] at h
      cases hfq : st.drv.bdpp_free_queue with
      | nil =>
          rw [hfq] at h
          simp at h
      | cons p rest =>
          rw [hfq] at h
          simp at h
          subst h
          simp [count4, count3, hfq]
          omega
  | complete sidx =>
      simp only [stepOp, LifeState.complete] at h
      cases harm : st.armed with
      | nil =>
          rw [harm] at h
          simp at h
      | cons p rest =>
          rw [harm] at h
          cases hq : st.drv.bdpp_rx_queue[sidx]? with
          | none =>
              rw [hq] at h
              simp at h
          | some q =>
              rw [hq] at h
              simp at h
              subst h
              have hsum := sumLens_set st.drv.bdpp_rx_queue sidx q (q ++ [p]) hq
              simp [count4, count3, harm] at *
              omega
  | dequeue sidx =>
      simp only [stepOp, LifeState.dequeue] at h
      cases hg : bdpp_get_rx_packet st.drv sidx with
      | none =>
          rw [hg] at h
          simp at h
      | some pr =>
          obtain ⟨po, drv2⟩ := pr
          cases po with
          | none =>
              rw [hg] at h
              simp at h
          | some p =>
              rw [hg] at h
              simp at h
              subst h
              simp only [bdpp_get_rx_packet] at hg
              cases hq : st.drv.bdpp_rx_queue[sidx]? with
              | none =>
                  rw [hq] at hg
                  simp at hg
              | some q =>
                  rw [hq] at hg
                  cases q with
                  | nil => simp at hg
                  | cons p0 rest0 =>
                      simp at hg
                      obtain ⟨hp0, hdrv⟩ := hg
                      subst hp0
                      subst hdrv
                      have hsum := sumLens_set st.drv.bdpp_rx_queue sidx
                        (p0 :: rest0) rest0 hq
                      simp [count4, count3] at *
                      omega
  | recycle =>
      simp only [stepOp, LifeState.recycle] at h
      cases hah : st.app_held with
      | nil =>
          rw [hah] at h
          simp at h
      | cons p rest =>
          rw [hah] at h
          simp at h
          subst h
          simp [count4, count3, hah]
          omega

/-- Every legal run of lifecycle operations preserves the four-way count. -/
theorem runOps_count4 (ops : List RxOp) :
    ∀ (st st2 : LifeState), runOps ops st = some st2 → count4 st2 = count4 st := by
  induction ops with
  | nil =>
      intro st st2 h
      simp [runOps] at h
      subst h
      rfl
  | cons op rest ih =>
      intro st st2 h
      simp only [runOps] at h
      cases hs : stepOp op st with
      | none =>
          rw [hs] at h
          simp at h
      | some mid =>
          rw [hs] at h
          simp at h
          exact (ih mid st2 h).trans (stepOp_count4 op st mid hs)

/-- C1 (counterexample): after initialization, the legal sequence arm,
complete on stream 0, dequeue on stream 0 leaves only 15 app-owned RX
buffers across FreeQueue, the armed set and the sixteen RxQueues, although
the pool size at initialization is 16: the dequeued buffer is held by the
application until recycled, so the count over those three places alone is
not constant. -/
theorem claim1_conservation_counterexample :
    (runOps [RxOp.arm, RxOp.complete 0, RxOp.dequeue 0] initLife).map count3
        = some 15
    ∧ count3 initLife = BDPP_MAX_APP_PACKETS :=
  ⟨by decide, by decide⟩

/-- C1 amended: for every legal sequence of arm, complete, dequeue and
recycle operations after initialization, the total count of app-owned RX
packets across FreeQueue, armed-for-reception, the sixteen RxQueues and
the packets dequeued by the application and not yet recycled is constant
and equals the pool size BDPP_MAX_APP_PACKETS = 16. -/
theorem claim1_conservation_amended :
    ∀ (ops : List RxOp) (st : LifeState), runOps ops initLife = some st →
      count4 st = BDPP_MAX_APP_PACKETS := by
  intro ops st h
  exact (runOps_count4 ops initLife st h).trans (by decide)

/-- Witness for the amended C1 at the empty operation sequence. -/
theorem claim1_conservation_amended_witness :
    count4 initLife = BDPP_MAX_APP_PACKETS :=
  claim1_conservation_amended [] initLife rfl

end BDPP
